import Mathlib

/-!
Shallow embedding of `src/localstack/init.py` (panda-pulse).

The script is a straight-line Python module:

  print("Starting S3 initialization...")
  bucket_name = os.getenv("S3_BUCKET")
  print(f"Creating bucket: {bucket_name}")
  s3_client = boto3.client("s3", endpoint_url="http://localhost:4566",
      aws_access_key_id=os.getenv("AWS_ACCESS_KEY_ID"),
      aws_secret_access_key=os.getenv("AWS_SECRET_ACCESS_KEY"))
  s3_client.create_bucket(Bucket=bucket_name)
  print(f"Bucket {bucket_name} created successfully")

We model one run as a list of observable events together with the final
process status (true = clean exit, false = termination by an uncaught
exception from `create_bucket`).  The process environment is a total map
from variable names to optional values, matching `os.getenv` which
returns `None` for absent variables.  Whether the single fallible call
`create_bucket` raises is an external input of the run.
-/

namespace PandaPulse

/-- Python `str()` rendering of an `Optional[str]` value inside an f-string:
`None` renders as the four characters `None`, a present string renders as
itself. -/
def pyStr : Option String → String
  | none => "None"
  | some s => s

/-- Observable events of one run of the script, in program order. -/
inductive Event where
  /-- `os.getenv(name)` returned `value`. -/
  | envRead (name : String) (value : Option String)
  /-- `print(line)` wrote `line` to stdout. -/
  | print (line : String)
  /-- `boto3.client(service, endpoint_url=endpoint, aws_access_key_id=accessKey,
  aws_secret_access_key=secretKey)` constructed the client. -/
  | clientConstructed (service endpoint : String) (accessKey secretKey : Option String)
  /-- `s3_client.create_bucket(Bucket=bucket)` issued the outbound request to
  the client's endpoint. -/
  | createBucket (endpoint : String) (bucket : Option String)
  deriving DecidableEq

/-- One run of `src/localstack/init.py`.  `getenv` is the process
environment; `createBucketRaises` records whether the single
`create_bucket` call raises.  The result is the event trace in program
order and the final status (`true` = clean exit with code 0, `false` =
process terminated by the uncaught exception). -/
def runInit (getenv : String → Option String) (createBucketRaises : Bool) :
    List Event × Bool :=
  let bucket_name := getenv "S3_BUCKET"
  let access_key := getenv "AWS_ACCESS_KEY_ID"
  let secret_key := getenv "AWS_SECRET_ACCESS_KEY"
  let pre : List Event :=
    [ Event.print "Starting S3 initialization...",
      Event.envRead "S3_BUCKET" bucket_name,
      Event.print ("Creating bucket: " ++ pyStr bucket_name),
      Event.envRead "AWS_ACCESS_KEY_ID" access_key,
      Event.envRead "AWS_SECRET_ACCESS_KEY" secret_key,
      Event.clientConstructed "s3" "http://localhost:4566" access_key secret_key,
      Event.createBucket "http://localhost:4566" bucket_name ]
  if createBucketRaises then
    (pre, false)
  else
    (pre ++ [Event.print ("Bucket " ++ (pyStr bucket_name ++ " created successfully"))], true)

/-- Modelled from the spec: the second, print-free near-duplicate copy of the
script described in spec §9 is not present under `src/` (only the verbose
variant is).  Per the spec it differs from the verbose variant only in the
absence of the three print statements: same environment reads, same client
construction bound to the fixed local endpoint, and the same single
create-bucket request. -/
def runInitQuiet (getenv : String → Option String) (createBucketRaises : Bool) :
    List Event × Bool :=
  let bucket_name := getenv "S3_BUCKET"
  let access_key := getenv "AWS_ACCESS_KEY_ID"
  let secret_key := getenv "AWS_SECRET_ACCESS_KEY"
  let pre : List Event :=
    [ Event.envRead "S3_BUCKET" bucket_name,
      Event.envRead "AWS_ACCESS_KEY_ID" access_key,
      Event.envRead "AWS_SECRET_ACCESS_KEY" secret_key,
      Event.clientConstructed "s3" "http://localhost:4566" access_key secret_key,
      Event.createBucket "http://localhost:4566" bucket_name ]
  if createBucketRaises then
    (pre, false)
  else
    (pre, true)

/-- Whether an event is a `print`. -/
def Event.isPrint : Event → Bool
  | .print _ => true
  | _ => false

/-- The line written by a `print` event, if any. -/
def Event.printedLine : Event → Option String
  | .print l => some l
  | _ => none

/-- The standard output of a run: the printed lines, in order. -/
def stdout (r : List Event × Bool) : List String :=
  r.1.filterMap Event.printedLine

/-- Whether an event is an outbound interaction of the storage client
(client construction or the create-bucket request). -/
def Event.isOutbound : Event → Bool
  | .clientConstructed _ _ _ _ => true
  | .createBucket _ _ => true
  | _ => false

/-- Whether an event is the create-bucket request. -/
def Event.isCreateBucket : Event → Bool
  | .createBucket _ _ => true
  | _ => false

/-- Whether an event is a read of the environment variable `n`. -/
def Event.isEnvReadOf (n : String) : Event → Bool
  | .envRead m _ => m == n
  | _ => false

/-- The endpoint of each outbound interaction in a trace, in order. -/
def endpointsUsed (tr : List Event) : List String :=
  tr.filterMap fun e => match e with
    | .clientConstructed _ ep _ _ => some ep
    | .createBucket ep _ => some ep
    | _ => none

/-- The credential pair of each client construction in a trace, in order. -/
def clientCredsUsed (tr : List Event) : List (Option String × Option String) :=
  tr.filterMap fun e => match e with
    | .clientConstructed _ _ ak sk => some (ak, sk)
    | _ => none

/-- The bucket-name argument of each create-bucket request in a trace, in
order. -/
def requestBuckets (tr : List Event) : List (Option String) :=
  tr.filterMap fun e => match e with
    | .createBucket _ b => some b
    | _ => none

/-- Index of the first event satisfying `p`, if any. -/
def firstIdx (p : Event → Bool) : List Event → Option Nat
  | [] => none
  | e :: tr => if p e then some 0 else (firstIdx p tr).map (· + 1)

/-- The lines printed strictly before the create-bucket request is issued. -/
def printsBeforeRequest (tr : List Event) : List String :=
  (tr.takeWhile fun e => !e.isCreateBucket).filterMap Event.printedLine

/-- The outbound interactions of a trace (client construction and the
create-bucket request), in order, with all their parameters. -/
def outboundEvents (tr : List Event) : List Event :=
  tr.filter Event.isOutbound

/-- `small` occurs as a contiguous substring of `big`. -/
def strContains (big small : String) : Prop :=
  small.data <:+: big.data

/-- The list of lines `out` contains the strings `needles`, in order: some
subsequence of the lines matches `needles` one line per needle, each line
containing its needle as a substring. -/
def outContainsInOrder (out needles : List String) : Prop :=
  ∃ ws, List.Sublist ws out ∧ List.Forall₂ (fun l n => strContains l n) ws needles

/-- The three steps of the script in spec §4.1, with prints regarded as
logging rather than a step. -/
inductive Step where
  | readConfig
  | buildClient
  | issueRequest
  deriving DecidableEq

/-- Which of the three spec steps an event belongs to (`none` for prints). -/
def Event.step : Event → Option Step
  | .envRead _ _ => some .readConfig
  | .clientConstructed _ _ _ _ => some .buildClient
  | .createBucket _ _ => some .issueRequest
  | .print _ => none

/-- The sequence of non-logging steps a trace performs, in order. -/
def steps (tr : List Event) : List Step :=
  tr.filterMap Event.step

/-- A concrete environment with `S3_BUCKET=test-bucket` and nothing else set. -/
def gTest : String → Option String :=
  fun k => if k = "S3_BUCKET" then some "test-bucket" else none

/-- A concrete environment with nothing set. -/
def gEmpty : String → Option String := fun _ => none

/-- A concrete environment agreeing with `gTest` on the three variables the
script reads but differing elsewhere. -/
def gTest2 : String → Option String :=
  fun k => if k = "S3_BUCKET" then some "test-bucket"
           else if k = "UNRELATED_VAR" then some "x" else none

instance (big small : String) : Decidable (strContains big small) :=
  inferInstanceAs (Decidable (List.IsInfix small.data big.data))

/-! ## Basic facts shared between claims -/

/-- On the success path, the standard output of the script is exactly its
three progress lines. -/
theorem stdout_runInit (g : String → Option String) :
    stdout (runInit g false) =
      ["Starting S3 initialization...",
       "Creating bucket: " ++ pyStr (g "S3_BUCKET"),
       "Bucket " ++ (pyStr (g "S3_BUCKET") ++ " created successfully")] := rfl

/-! ## Claims -/

/-- Claim C1: if the environment variable `S3_BUCKET` is set to
`test-bucket` and the `create_bucket` call returns without raising, stdout
contains, in order, the substrings `Starting S3 initialization`,
`Creating bucket: test-bucket` and `Bucket test-bucket created successfully`. -/
theorem c1_stdout_in_order (g : String → Option String)
    (h : g "S3_BUCKET" = some "test-bucket") :
    outContainsInOrder (stdout (runInit g false))
      ["Starting S3 initialization", "Creating bucket: test-bucket",
       "Bucket test-bucket created successfully"] := by
  rw [stdout_runInit, h]
  exact ⟨_, List.Sublist.refl _,
    .cons (by decide) (.cons (by decide) (.cons (by decide) .nil))⟩

/-- Witness for C1 at the concrete environment `gTest`. -/
theorem c1_stdout_in_order_witness :
    gTest "S3_BUCKET" = some "test-bucket" ∧
    outContainsInOrder (stdout (runInit gTest false))
      ["Starting S3 initialization", "Creating bucket: test-bucket",
       "Bucket test-bucket created successfully"] :=
  ⟨rfl, c1_stdout_in_order gTest rfl⟩

/-- Claim C2: in every run, the single client construction uses the
hardcoded endpoint `http://localhost:4566`, the single create-bucket
request goes to that same endpoint, and there is exactly one create-bucket
request — for every environment and whether or not the call raises. -/
theorem c2_fixed_endpoint (g : String → Option String) (raises : Bool) :
    endpointsUsed (runInit g raises).1 =
      ["http://localhost:4566", "http://localhost:4566"] ∧
    (runInit g raises).1.countP Event.isCreateBucket = 1 := by
  cases raises <;> exact ⟨rfl, rfl⟩

/-- Claim C3: in every execution the read of `S3_BUCKET` occurs strictly
before the first outbound interaction (client construction) and strictly
before the create-bucket request. -/
theorem c3_env_read_before_outbound (g : String → Option String) (raises : Bool) :
    ∃ i j k,
      firstIdx (Event.isEnvReadOf "S3_BUCKET") (runInit g raises).1 = some i ∧
      firstIdx Event.isOutbound (runInit g raises).1 = some j ∧
      firstIdx Event.isCreateBucket (runInit g raises).1 = some k ∧
      i < j ∧ i < k := by
  cases raises <;> exact ⟨1, 5, 6, rfl, rfl, rfl, by omega, by omega⟩

/-- Two strings whose first characters differ are different. -/
theorem string_head_ne (a b : String) (c d : Char)
    (ha : a.data.headI = c) (hb : b.data.headI = d) (hcd : c ≠ d) : a ≠ b := by
  intro h
  exact hcd (by rw [← ha, h, hb])

/-- Claim C4: when the `create_bucket` call raises, the script catches
nothing — the process terminates with nonzero status (final status
`false`), the success line is not printed (stdout is exactly the two
leading progress lines, and the success line is not among them), and no
retry happens (still exactly one create-bucket request). -/
theorem c4_raise_propagates (g : String → Option String) :
    (runInit g true).2 = false ∧
    stdout (runInit g true) =
      ["Starting S3 initialization...",
       "Creating bucket: " ++ pyStr (g "S3_BUCKET")] ∧
    ("Bucket " ++ (pyStr (g "S3_BUCKET") ++ " created successfully")) ∉
      stdout (runInit g true) ∧
    (runInit g true).1.countP Event.isCreateBucket = 1 := by
  refine ⟨rfl, rfl, ?_, rfl⟩
  intro hmem
  have hout : stdout (runInit g true) =
      ["Starting S3 initialization...",
       "Creating bucket: " ++ pyStr (g "S3_BUCKET")] := rfl
  rw [hout] at hmem
  rcases List.mem_cons.mp hmem with h | h
  · exact string_head_ne _ _ 'B' 'S' (by rfl) (by rfl) (by decide) h
  · rcases List.mem_singleton.mp h with h2
    exact string_head_ne _ _ 'B' 'C' (by rfl) (by rfl) (by decide) h2

/-- Claim C5: in every run there is exactly one client construction, and
the credentials passed to it are exactly the values of
`AWS_ACCESS_KEY_ID` and `AWS_SECRET_ACCESS_KEY` from the environment,
untransformed — `none` standing for an absent variable, deferring to the
SDK's ambient credential resolution. -/
theorem c5_credentials_passthrough (g : String → Option String) (raises : Bool) :
    clientCredsUsed (runInit g raises).1 =
      [(g "AWS_ACCESS_KEY_ID", g "AWS_SECRET_ACCESS_KEY")] := by
  cases raises <;> rfl

/-- Claim C6: if `S3_BUCKET` is unset, the script still issues the
create-bucket request, with `none` as its bucket-name argument — exactly
one request, no validation and no special branch for the unset case, on
both the raising and the non-raising path. -/
theorem c6_unset_bucket_none_request (g : String → Option String)
    (h : g "S3_BUCKET" = none) (raises : Bool) :
    Event.createBucket "http://localhost:4566" none ∈ (runInit g raises).1 ∧
    requestBuckets (runInit g raises).1 = [none] := by
  have hb : requestBuckets (runInit g raises).1 = [g "S3_BUCKET"] := by
    cases raises <;> rfl
  rw [h] at hb
  refine ⟨?_, hb⟩
  have hm : Event.createBucket "http://localhost:4566" (g "S3_BUCKET") ∈
      (runInit g raises).1 := by
    cases raises <;> simp [runInit]
  rwa [h] at hm

/-- Witness for C6 at the concrete empty environment `gEmpty`. -/
theorem c6_unset_bucket_none_request_witness :
    gEmpty "S3_BUCKET" = none ∧
    (Event.createBucket "http://localhost:4566" none ∈ (runInit gEmpty false).1 ∧
     requestBuckets (runInit gEmpty false).1 = [none]) :=
  ⟨rfl, c6_unset_bucket_none_request gEmpty rfl false⟩

/-- Claim C7: every execution performs, apart from logging, the single
linear sequence read-configuration (the three environment reads), then
build-client, then issue-request — with no branching, hence exactly one
create-bucket request on every path (one on the success path, one on the
raising path, never more). -/
theorem c7_linear_three_steps (g : String → Option String) (raises : Bool) :
    steps (runInit g raises).1 =
      [.readConfig, .readConfig, .readConfig, .buildClient, .issueRequest] := by
  cases raises <;> rfl

/-- Claim C8: the verbose script and its print-free near-duplicate (modelled
from spec §9 as `runInitQuiet`) are behaviorally equivalent except for stdout:
dropping the print events from the verbose trace yields exactly the quiet
trace (same environment reads, same client construction, same single
request, in the same order), the quiet variant prints nothing, and both
variants finish with the same status. -/
theorem c8_variants_equiv (g : String → Option String) (raises : Bool) :
    (runInit g raises).1.filter (fun e => !e.isPrint) = (runInitQuiet g raises).1 ∧
    stdout (runInitQuiet g raises) = [] ∧
    (runInit g raises).2 = (runInitQuiet g raises).2 := by
  cases raises <;> exact ⟨rfl, rfl, rfl⟩

/-- On every path, the lines printed before the create-bucket request is
issued are the two leading progress lines. -/
theorem printsBefore_runInit (g : String → Option String) (raises : Bool) :
    printsBeforeRequest (runInit g raises).1 =
      ["Starting S3 initialization...",
       "Creating bucket: " ++ pyStr (g "S3_BUCKET")] := by
  cases raises <;> rfl

/-- On every path, the outbound interactions are exactly one client
construction with the fixed endpoint and the environment credentials,
followed by one create-bucket request for the environment bucket name. -/
theorem outbound_runInit (g : String → Option String) (raises : Bool) :
    outboundEvents (runInit g raises).1 =
      [Event.clientConstructed "s3" "http://localhost:4566"
         (g "AWS_ACCESS_KEY_ID") (g "AWS_SECRET_ACCESS_KEY"),
       Event.createBucket "http://localhost:4566" (g "S3_BUCKET")] := by
  cases raises <;> rfl

/-- Claim C9: even with `S3_BUCKET` unset, the script unconditionally prints
its two progress lines before issuing any request, the second being the
literal `Creating bucket: None` — the Python rendering of the absent
value — on both the raising and the non-raising path. -/
theorem c9_prints_none_when_unset (g : String → Option String)
    (h : g "S3_BUCKET" = none) (raises : Bool) :
    printsBeforeRequest (runInit g raises).1 =
      ["Starting S3 initialization...", "Creating bucket: None"] := by
  rw [printsBefore_runInit, h]
  rfl

/-- Witness for C9 at the concrete empty environment `gEmpty`. -/
theorem c9_prints_none_when_unset_witness :
    gEmpty "S3_BUCKET" = none ∧
    printsBeforeRequest (runInit gEmpty true).1 =
      ["Starting S3 initialization...", "Creating bucket: None"] :=
  ⟨rfl, c9_prints_none_when_unset gEmpty rfl true⟩

/-- Claim C10: the script is deterministic in its three environment
variables: two runs whose environments agree on `S3_BUCKET`,
`AWS_ACCESS_KEY_ID` and `AWS_SECRET_ACCESS_KEY` (present or absent alike)
print identical stdout up to the create-bucket call and issue outbound
requests with identical parameters (endpoint, credentials, bucket name) —
regardless of whether either run's call raises. -/
theorem c10_deterministic (g1 g2 : String → Option String)
    (hb : g1 "S3_BUCKET" = g2 "S3_BUCKET")
    (ha : g1 "AWS_ACCESS_KEY_ID" = g2 "AWS_ACCESS_KEY_ID")
    (hs : g1 "AWS_SECRET_ACCESS_KEY" = g2 "AWS_SECRET_ACCESS_KEY")
    (r1 r2 : Bool) :
    printsBeforeRequest (runInit g1 r1).1 = printsBeforeRequest (runInit g2 r2).1 ∧
    outboundEvents (runInit g1 r1).1 = outboundEvents (runInit g2 r2).1 := by
  rw [printsBefore_runInit, printsBefore_runInit, outbound_runInit,
    outbound_runInit, hb, ha, hs]
  exact ⟨rfl, rfl⟩

/-- Witness for C10 at the concrete environments `gTest` and `gTest2`,
which agree on the three read variables but differ elsewhere, one run
raising and the other not. -/
theorem c10_deterministic_witness :
    (gTest "S3_BUCKET" = gTest2 "S3_BUCKET" ∧
     gTest "AWS_ACCESS_KEY_ID" = gTest2 "AWS_ACCESS_KEY_ID" ∧
     gTest "AWS_SECRET_ACCESS_KEY" = gTest2 "AWS_SECRET_ACCESS_KEY") ∧
    (printsBeforeRequest (runInit gTest false).1 =
       printsBeforeRequest (runInit gTest2 true).1 ∧
     outboundEvents (runInit gTest false).1 =
       outboundEvents (runInit gTest2 true).1) :=
  ⟨⟨rfl, rfl, rfl⟩, c10_deterministic gTest gTest2 rfl rfl rfl false true⟩

end PandaPulse
